import Mathlib

/-!
Shallow embedding of the task-management backend:
the agent-facing tools in backend/mcp/tools.py and the HTTP route
handlers in backend/routes/tasks.py, over an explicit task store.

Timestamps are modelled as natural numbers; `datetime.utcnow()` becomes an
explicit `now` parameter to every mutating operation. Python string
`strip` is modelled by `pyStrip` (drop whitespace from both ends of the
character list), and `len` by `String.length`.
-/

namespace TodoApp

/-- Python `str.strip()`: remove leading and trailing whitespace. -/
def pyStrip (s : String) : String :=
  String.mk ((((s.data.dropWhile Char.isWhitespace).reverse).dropWhile
    Char.isWhitespace).reverse)

/-- The Task entity. The SQLModel definition (backend/models.py) is not part
of the available sources. Modelled from the spec: `id` integer assigned by
the store, `user_id` string owner, `title`/`description` strings,
`completed` boolean defaulting to false, `created_at` set once at creation,
`updated_at` set at creation and refreshed on every mutation. -/
structure Task where
  id : Nat
  user_id : String
  title : String
  description : String
  completed : Bool
  created_at : Nat
  updated_at : Nat
  deriving DecidableEq

/-- The persistent store: the rows of the task table, plus the next
auto-assigned primary key. -/
structure Store where
  tasks : List Task
  nextId : Nat
  deriving DecidableEq

/-- `session.get(Task, task_id)`: primary-key lookup, across all users. -/
def Store.find (s : Store) (task_id : Nat) : Option Task :=
  s.tasks.find? (fun t => t.id == task_id)

/-- Committing an in-place mutation of the row with primary key `task_id`. -/
def replaceStore (s : Store) (task_id : Nat) (t2 : Task) : Store :=
  { s with tasks := s.tasks.map (fun t => if t.id == task_id then t2 else t) }

/-- The uniform tool envelope: `success=false` with an `error` string, or
`success=true` with a payload dict and a `message`. -/
inductive Outcome (α : Type) where
  | failure (error : String)
  | success (payload : α) (message : String)
  deriving DecidableEq

def Outcome.isFailure {α : Type} : Outcome α → Bool
  | Outcome.failure _ => true
  | Outcome.success _ _ => false

def Outcome.isSuccess {α : Type} : Outcome α → Bool
  | Outcome.failure _ => false
  | Outcome.success _ _ => true

/-- The task dict returned by add_task and list_tasks. -/
structure TaskOut where
  id : Nat
  title : String
  description : String
  completed : Bool
  created_at : Nat
  deriving DecidableEq

/-- The task dict returned by complete_task. -/
structure CompleteOut where
  id : Nat
  title : String
  completed : Bool
  deriving DecidableEq

/-- The task dict returned by update_task. -/
structure UpdateOut where
  id : Nat
  title : String
  description : String
  completed : Bool
  updated_at : Nat
  deriving DecidableEq

/-- The list_tasks envelope (always `success=true`). -/
structure ListOut where
  tasks : List TaskOut
  total : Nat
  pending : Nat
  completed : Nat
  message : String
  deriving DecidableEq

def taskOutOf (t : Task) : TaskOut :=
  { id := t.id, title := t.title, description := t.description,
    completed := t.completed, created_at := t.created_at }

def errTitleRequired : String := "Task title is required"

def errTitleTooLong : String := "Task title must be 200 characters or less"

def errDescTooLong : String := "Description must be 1000 characters or less"

def errTaskNotFound : String := "Task not found"

def errNotFoundWithId (task_id : Nat) : String :=
  "Task with ID " ++ toString task_id ++ " not found"

def errFieldRequired : String :=
  "At least one field (title or description) must be provided"

def quoted (s : String) : String := "\x27" ++ s ++ "\x27"

def msgAdded (title : String) : String :=
  "Task " ++ quoted title ++ " has been added successfully."

def msgFound (total pending completed : Nat) : String :=
  "Found " ++ toString total ++ " task(s): " ++ toString pending ++
    " pending, " ++ toString completed ++ " completed."

def tailAlready : String := " was already completed."

def tailMarked : String := " has been marked as completed."

def msgAlreadyCompleted (title : String) : String :=
  "Task " ++ quoted title ++ tailAlready

def msgMarkedCompleted (title : String) : String :=
  "Task " ++ quoted title ++ tailMarked

def msgDeleted (title : String) : String :=
  "Task " ++ quoted title ++ " has been deleted."

def msgUpdated (title : String) : String :=
  "Task " ++ quoted title ++ " has been updated."

def emptyStr : String := ""

/-- backend/mcp/tools.py `add_task`. -/
def add_task (s : Store) (now : Nat) (user_id title description : String) :
    Outcome TaskOut × Store :=
  if title = "" ∨ pyStrip title = "" then
    (Outcome.failure errTitleRequired, s)
  else if title.length > 200 then
    (Outcome.failure errTitleTooLong, s)
  else if description.length > 1000 then
    (Outcome.failure errDescTooLong, s)
  else
    let task : Task :=
      { id := s.nextId, user_id := user_id, title := pyStrip title,
        description :=
          if description = emptyStr then emptyStr
          else pyStrip description,
        completed := false, created_at := now, updated_at := now }
    (Outcome.success (taskOutOf task) (msgAdded task.title),
      { tasks := s.tasks ++ [task], nextId := s.nextId + 1 })

/-- backend/mcp/tools.py `list_tasks`. -/
def list_tasks (s : Store) (user_id : String) (include_completed : Bool)
    (limit : Nat) : ListOut :=
  let ts := s.tasks.filter (fun t => t.user_id == user_id)
  let ts := if include_completed then ts else ts.filter (fun t => t.completed == false)
  let ts := ts.take limit
  let task_list := ts.map taskOutOf
  let pending_count := task_list.countP (fun t => !t.completed)
  let completed_count := task_list.countP (fun t => t.completed)
  { tasks := task_list, total := task_list.length,
    pending := pending_count, completed := completed_count,
    message := msgFound task_list.length pending_count completed_count }

/-- `list_tasks` at its declared defaults: include_completed=true, limit=50. -/
def list_tasks_with_defaults (s : Store) (user_id : String) : ListOut :=
  list_tasks s user_id true 50

/-- backend/mcp/tools.py `complete_task`. -/
def complete_task (s : Store) (now : Nat) (user_id : String) (task_id : Nat) :
    Outcome CompleteOut × Store :=
  match s.find task_id with
  | none => (Outcome.failure (errNotFoundWithId task_id), s)
  | some task =>
    if task.user_id ≠ user_id then
      (Outcome.failure errTaskNotFound, s)
    else if task.completed then
      (Outcome.success
        { id := task.id, title := task.title, completed := task.completed }
        (msgAlreadyCompleted task.title), s)
    else
      let task2 := { task with completed := true, updated_at := now }
      (Outcome.success
        { id := task2.id, title := task2.title, completed := task2.completed }
        (msgMarkedCompleted task2.title),
        replaceStore s task_id task2)

/-- backend/mcp/tools.py `delete_task`. -/
def delete_task (s : Store) (user_id : String) (task_id : Nat) :
    Outcome Nat × Store :=
  match s.find task_id with
  | none => (Outcome.failure (errNotFoundWithId task_id), s)
  | some task =>
    if task.user_id ≠ user_id then
      (Outcome.failure errTaskNotFound, s)
    else
      (Outcome.success task_id (msgDeleted task.title),
        { s with tasks := s.tasks.filter (fun t => !(t.id == task_id)) })

/-- backend/mcp/tools.py `update_task`. -/
def update_task (s : Store) (now : Nat) (user_id : String) (task_id : Nat)
    (title description : Option String) : Outcome UpdateOut × Store :=
  if title = none ∧ description = none then
    (Outcome.failure errFieldRequired, s)
  else if title.any (fun v => decide (v.length > 200)) then
    (Outcome.failure errTitleTooLong, s)
  else if description.any (fun v => decide (v.length > 1000)) then
    (Outcome.failure errDescTooLong, s)
  else
    match s.find task_id with
    | none => (Outcome.failure (errNotFoundWithId task_id), s)
    | some task =>
      if task.user_id ≠ user_id then
        (Outcome.failure errTaskNotFound, s)
      else
        let t1 := match title with | none => task.title | some v => pyStrip v
        let d1 := match description with | none => task.description | some v => pyStrip v
        let task2 := { task with title := t1, description := d1, updated_at := now }
        (Outcome.success
          { id := task2.id, title := task2.title, description := task2.description,
            completed := task2.completed, updated_at := task2.updated_at }
          (msgUpdated task2.title),
          replaceStore s task_id task2)

/-! HTTP layer: backend/routes/tasks.py. Route handlers are modelled as
functions returning `Except HttpError`; a raised `HTTPException` becomes
`Except.error` carrying the status code and detail. Request-body validation
by the pydantic schemas (`TaskCreate`, `TaskUpdate`) happens before the
handler body runs and surfaces as status 422; its structured detail is
modelled by a fixed string. -/

structure HttpError where
  status : Nat
  detail : String
  deriving DecidableEq

def exceptDecEq {ε α : Type} [DecidableEq ε] [DecidableEq α] :
    (a b : Except ε α) → Decidable (a = b)
  | Except.error x, Except.error y =>
    if h : x = y then Decidable.isTrue (by rw [h])
    else Decidable.isFalse (fun hc => h (Except.error.inj hc))
  | Except.error _, Except.ok _ => Decidable.isFalse (fun hc => Except.noConfusion hc)
  | Except.ok _, Except.error _ => Decidable.isFalse (fun hc => Except.noConfusion hc)
  | Except.ok x, Except.ok y =>
    if h : x = y then Decidable.isTrue (by rw [h])
    else Decidable.isFalse (fun hc => h (Except.ok.inj hc))

instance {ε α : Type} [DecidableEq ε] [DecidableEq α] : DecidableEq (Except ε α) :=
  exceptDecEq

def accessDenied : String := "Access denied: user_id mismatch"

def validationFailed : String := "Validation error"

/-- Pydantic `TaskCreate`: title 1..200 chars, description at most 1000
chars (no trimming). -/
def validTaskCreate (title description : String) : Bool :=
  decide (1 ≤ title.length) && decide (title.length ≤ 200) &&
    decide (description.length ≤ 1000)

/-- Pydantic `TaskUpdate`: each field optional; a supplied title has 1..200
chars, a supplied description at most 1000 chars (no trimming). -/
def validTaskUpdate (title description : Option String) : Bool :=
  title.all (fun v => decide (1 ≤ v.length) && decide (v.length ≤ 200)) &&
    description.all (fun v => decide (v.length ≤ 1000))

/-- backend/routes/tasks.py `verify_user_access`. -/
def verify_user_access (url_user_id token_user_id : String) :
    Except HttpError Unit :=
  if url_user_id ≠ token_user_id then
    Except.error { status := 403, detail := accessDenied }
  else
    Except.ok ()

/-- backend/routes/tasks.py `get_task_or_404`. -/
def get_task_or_404 (s : Store) (user_id : String) (task_id : Nat) :
    Except HttpError Task :=
  match s.find task_id with
  | none => Except.error { status := 404, detail := errTaskNotFound }
  | some task =>
    if task.user_id ≠ user_id then
      Except.error { status := 404, detail := errTaskNotFound }
    else
      Except.ok task

/-- backend/routes/tasks.py GET `list_tasks` route. -/
def http_list_tasks (s : Store) (url_user_id token_user_id : String) :
    Except HttpError (List Task) :=
  match verify_user_access url_user_id token_user_id with
  | Except.error e => Except.error e
  | Except.ok _ => Except.ok (s.tasks.filter (fun t => t.user_id == url_user_id))

/-- backend/routes/tasks.py POST `create_task` route, body validation
included. The route stores `task_data.title` and `task_data.description`
as received. -/
def http_create_task (s : Store) (now : Nat)
    (url_user_id token_user_id title description : String) :
    Except HttpError (Task × Store) :=
  if !(validTaskCreate title description) then
    Except.error { status := 422, detail := validationFailed }
  else
    match verify_user_access url_user_id token_user_id with
    | Except.error e => Except.error e
    | Except.ok _ =>
      let task : Task :=
        { id := s.nextId, user_id := url_user_id, title := title,
          description := description, completed := false,
          created_at := now, updated_at := now }
      Except.ok (task, { tasks := s.tasks ++ [task], nextId := s.nextId + 1 })

/-- backend/routes/tasks.py GET `get_task` route. -/
def http_get_task (s : Store) (url_user_id token_user_id : String)
    (task_id : Nat) : Except HttpError Task :=
  match verify_user_access url_user_id token_user_id with
  | Except.error e => Except.error e
  | Except.ok _ => get_task_or_404 s url_user_id task_id

/-- backend/routes/tasks.py PUT `update_task` route, body validation
included. Supplied fields are stored as received (no trimming); there is
no check that at least one field is supplied. -/
def http_update_task (s : Store) (now : Nat)
    (url_user_id token_user_id : String) (task_id : Nat)
    (title description : Option String) : Except HttpError (Task × Store) :=
  if !(validTaskUpdate title description) then
    Except.error { status := 422, detail := validationFailed }
  else
    match verify_user_access url_user_id token_user_id with
    | Except.error e => Except.error e
    | Except.ok _ =>
      match get_task_or_404 s url_user_id task_id with
      | Except.error e => Except.error e
      | Except.ok task =>
        let t1 := match title with | none => task.title | some v => v
        let d1 := match description with | none => task.description | some v => v
        let task2 := { task with title := t1, description := d1, updated_at := now }
        Except.ok (task2, replaceStore s task_id task2)

/-- backend/routes/tasks.py DELETE `delete_task` route (204, no body). -/
def http_delete_task (s : Store) (url_user_id token_user_id : String)
    (task_id : Nat) : Except HttpError Store :=
  match verify_user_access url_user_id token_user_id with
  | Except.error e => Except.error e
  | Except.ok _ =>
    match get_task_or_404 s url_user_id task_id with
    | Except.error e => Except.error e
    | Except.ok _ =>
      Except.ok { s with tasks := s.tasks.filter (fun t => !(t.id == task_id)) }

/-- backend/routes/tasks.py PATCH `toggle_complete` route. -/
def http_toggle_complete (s : Store) (now : Nat)
    (url_user_id token_user_id : String) (task_id : Nat) :
    Except HttpError (Task × Store) :=
  match verify_user_access url_user_id token_user_id with
  | Except.error e => Except.error e
  | Except.ok _ =>
    match get_task_or_404 s url_user_id task_id with
    | Except.error e => Except.error e
    | Except.ok task =>
      let task2 := { task with completed := !task.completed, updated_at := now }
      Except.ok (task2, replaceStore s task_id task2)

def isOkE {α : Type} : Except HttpError α → Bool
  | Except.ok _ => true
  | Except.error _ => false

/-! Concrete fixtures for witnesses and counterexamples. -/

def userAlice : String := "alice"

def userBob : String := "bob"

def spaceTitle : String := " "

def xTitle : String := "x"

def task1 : Task :=
  { id := 1, user_id := userAlice, title := "Buy milk", description := "",
    completed := false, created_at := 0, updated_at := 0 }

def task9 : Task :=
  { id := 9, user_id := userAlice, title := "Read book", description := "",
    completed := true, created_at := 0, updated_at := 0 }

def store0 : Store := { tasks := [task1, task9], nextId := 10 }

def paddedTitle : String := String.mk (List.replicate 200 'a' ++ [' '])

/-! Helper lemmas shared by the claim theorems. -/

theorem pyStrip_of_empty : pyStrip "" = "" := rfl

theorem find?_replace (l : List Task) (tid : Nat) (t2 : Task) (h2 : t2.id = tid)
    (task : Task) (hfind : l.find? (fun t => t.id == tid) = some task) :
    (l.map (fun t => if t.id == tid then t2 else t)).find?
      (fun t => t.id == tid) = some t2 := by
  induction l with
  | nil => simp [List.find?] at hfind
  | cons a l ih =>
    by_cases h : (a.id == tid) = true
    · have hh : (if (a.id == tid) = true then t2 else a) = t2 := if_pos h
      rw [List.map_cons, hh]
      exact List.find?_cons_of_pos _ (show (t2.id == tid) = true by simp [h2])
    · have hh : (if (a.id == tid) = true then t2 else a) = a := if_neg h
      rw [@List.find?_cons_of_neg Task (fun t => t.id == tid) a l h] at hfind
      rw [List.map_cons, hh,
        @List.find?_cons_of_neg Task (fun t => t.id == tid) a _ h]
      exact ih hfind

theorem countP_not_add_countP (p : TaskOut → Bool) (l : List TaskOut) :
    l.countP (fun t => !(p t)) + l.countP p = l.length := by
  induction l with
  | nil => rfl
  | cons a l ih =>
    by_cases h : p a = true <;> simp [List.countP_cons, h] <;> omega

/-! Claim C1. -/

/-- C1 counterexample: for the agent tools, the failure outcome of an
ownership mismatch is NOT identical to that of a nonexistent task id.
In `store0` task 1 is owned by alice and task 2 does not exist; invoking
complete_task as bob yields error "Task not found" for task 1 but
"Task with ID 2 not found" for task 2 — both fail, but with different
error values. -/
theorem C1_counterexample_distinct_errors :
    (complete_task store0 0 userBob 1).1 = Outcome.failure errTaskNotFound ∧
    (complete_task store0 0 userBob 2).1 =
      Outcome.failure (errNotFoundWithId 2) ∧
    errTaskNotFound ≠ errNotFoundWithId 2 :=
  ⟨by decide, by decide, by decide⟩

/-- C1 (amended): every operation invoked on another user's task fails with
success=false carrying a not-found error — ownership is never surfaced as a
distinct "forbidden" outcome — but for the agent tools the ownership
mismatch yields the fixed error "Task not found" while a nonexistent id
yields "Task with ID ... not found"; only the HTTP get operation reports
the two cases with the identical response (404, "Task not found"). -/
theorem C1_ownership_reported_as_not_found (s : Store) (now : Nat)
    (a b : String) (task : Task) (tid tid2 : Nat)
    (hfind : s.find tid = some task) (hown : task.user_id = a) (hne : b ≠ a)
    (habsent : s.find tid2 = none) :
    (complete_task s now b tid).1 = Outcome.failure errTaskNotFound ∧
    (delete_task s b tid).1 = Outcome.failure errTaskNotFound ∧
    (update_task s now b tid (some xTitle) none).1 =
      Outcome.failure errTaskNotFound ∧
    (complete_task s now b tid2).1 =
      Outcome.failure (errNotFoundWithId tid2) ∧
    http_get_task s b b tid =
      Except.error { status := 404, detail := errTaskNotFound } ∧
    http_get_task s b b tid2 =
      Except.error { status := 404, detail := errTaskNotFound } := by
  have hub : task.user_id ≠ b := by rw [hown]; exact fun h => hne h.symm
  have hx : ((some xTitle).any (fun v => decide (v.length > 200))) = false := by
    decide
  refine ⟨?_, ?_, ?_, ?_, ?_, ?_⟩
  · simp [complete_task, hfind, hub]
  · simp [delete_task, hfind, hub]
  · simp [update_task, hfind, hub, hx]
  · simp [complete_task, habsent]
  · simp [http_get_task, verify_user_access, get_task_or_404, hfind, hub]
  · simp [http_get_task, verify_user_access, get_task_or_404, habsent]

/-- C1 witness: the amended theorem applied to `store0` with owner alice,
caller bob, owned task 1 and absent task id 2. -/
theorem C1_ownership_witness :
    (complete_task store0 0 userBob 1).1 = Outcome.failure errTaskNotFound ∧
    (delete_task store0 userBob 1).1 = Outcome.failure errTaskNotFound ∧
    (update_task store0 0 userBob 1 (some xTitle) none).1 =
      Outcome.failure errTaskNotFound ∧
    (complete_task store0 0 userBob 2).1 =
      Outcome.failure (errNotFoundWithId 2) ∧
    http_get_task store0 userBob userBob 1 =
      Except.error { status := 404, detail := errTaskNotFound } ∧
    http_get_task store0 userBob userBob 2 =
      Except.error { status := 404, detail := errTaskNotFound } :=
  C1_ownership_reported_as_not_found store0 0 userAlice userBob task1 1 2
    (by decide) (by decide) (by decide) (by decide)

/-! Claim C2. -/

set_option maxRecDepth 8000 in
/-- C2 counterexample: create does not trim before validating its length
bounds. `paddedTitle` is 200 copies of a followed by one space: its trimmed
length is 200, yet add_task rejects it (it checks the untrimmed length 201).
Conversely the HTTP create endpoint accepts the whitespace-only title " "
(pydantic min_length counts the untrimmed character), which the claim says
must be rejected. -/
theorem C2_counterexample_untrimmed_validation :
    pyStrip spaceTitle = emptyStr ∧
    isOkE (http_create_task store0 0 userAlice userAlice spaceTitle
      emptyStr) = true ∧
    (pyStrip paddedTitle).length = 200 ∧
    (add_task store0 0 userAlice paddedTitle emptyStr).1 =
      Outcome.failure errTitleTooLong :=
  ⟨by decide, by decide, by decide, by decide⟩

/-- C2 (amended): add_task rejects a title that is empty or whitespace-only
(checked after stripping) but checks the 200/1000 length bounds on the
UNTRIMMED strings — it fails exactly when the stripped title is empty, the
raw title exceeds 200 characters, or the raw description exceeds 1000; the
stored values are stripped. The HTTP create endpoint validates the raw
lengths (title 1..200, description at most 1000) with no trimming at all,
so a whitespace-only title is accepted there. -/
theorem C2_create_validation (s : Store) (now : Nat) (u title desc : String) :
    ((add_task s now u title desc).1.isFailure = true ↔
      (pyStrip title = "" ∨ title.length > 200 ∨ desc.length > 1000)) ∧
    (isOkE (http_create_task s now u u title desc) = true ↔
      (1 ≤ title.length ∧ title.length ≤ 200 ∧ desc.length ≤ 1000)) := by
  have hps : title = "" → pyStrip title = "" :=
    fun h => h ▸ pyStrip_of_empty
  constructor
  · unfold add_task
    by_cases h1 : title = "" ∨ pyStrip title = ""
    · rw [if_pos h1]
      exact ⟨fun _ => Or.inl (h1.elim (fun h => hps h) (fun h => h)),
        fun _ => rfl⟩
    · rw [if_neg h1]
      by_cases h2 : title.length > 200
      · rw [if_pos h2]
        exact ⟨fun _ => Or.inr (Or.inl h2), fun _ => rfl⟩
      · rw [if_neg h2]
        by_cases h3 : desc.length > 1000
        · rw [if_pos h3]
          exact ⟨fun _ => Or.inr (Or.inr h3), fun _ => rfl⟩
        · rw [if_neg h3]
          push_neg at h1
          constructor
          · intro hfalse
            simp [Outcome.isFailure] at hfalse
          · intro hrhs
            rcases hrhs with h | h | h
            · exact absurd h h1.2
            · exact absurd h h2
            · exact absurd h h3
  · unfold http_create_task
    by_cases hv : validTaskCreate title desc = true
    · have hv2 := hv
      simp only [validTaskCreate, Bool.and_eq_true, decide_eq_true_eq] at hv2
      simp [hv, isOkE, verify_user_access]
      exact ⟨hv2.1.1, hv2.1.2, hv2.2⟩
    · have hv0 : validTaskCreate title desc = false := by
        revert hv; cases validTaskCreate title desc <;> simp
      have hv2 := hv0
      simp only [validTaskCreate, Bool.and_eq_false_iff] at hv2
      simp [hv0, isOkE]
      simp only [validTaskCreate, Bool.and_eq_true, decide_eq_true_eq] at hv
      omega

/-- C2 witness: the validation characterisation applied at a concrete
input. -/
theorem C2_create_validation_witness :
    ((add_task store0 0 userAlice xTitle emptyStr).1.isFailure = true ↔
      (pyStrip xTitle = "" ∨ xTitle.length > 200 ∨ emptyStr.length > 1000)) ∧
    (isOkE (http_create_task store0 0 userAlice userAlice xTitle emptyStr) =
        true ↔
      (1 ≤ xTitle.length ∧ xTitle.length ≤ 200 ∧ emptyStr.length ≤ 1000)) :=
  C2_create_validation store0 0 userAlice xTitle emptyStr

/-! Claim C3. -/

theorem msgAlready_ne_msgMarked (title : String) :
    msgAlreadyCompleted title ≠ msgMarkedCompleted title := by
  intro h
  have hlen := congrArg String.length h
  simp only [msgAlreadyCompleted, msgMarkedCompleted, quoted,
    String.length_append] at hlen
  have e1 : tailAlready.length = 23 := rfl
  have e2 : tailMarked.length = 30 := rfl
  rw [e1, e2] at hlen
  omega

/-- C3: complete_task is idempotent. On an already-completed task it returns
success with the store unchanged and the message "... was already
completed."; on a not-yet-completed task it sets completed=true and
updated_at to the call time, with the distinct message "... has been marked
as completed."; and a second call never changes the store again — in
particular the second call's updated_at (the whole store) equals the first
call's. -/
theorem C3_complete_idempotent (s : Store) (n1 n2 : Nat) (uid : String)
    (tid : Nat) (task : Task)
    (hfind : s.find tid = some task) (hown : task.user_id = uid) :
    (task.completed = true →
      complete_task s n1 uid tid =
        (Outcome.success
          { id := task.id, title := task.title, completed := true }
          (msgAlreadyCompleted task.title), s)) ∧
    (task.completed = false →
      complete_task s n1 uid tid =
        (Outcome.success
          { id := task.id, title := task.title, completed := true }
          (msgMarkedCompleted task.title),
          replaceStore s tid { task with completed := true, updated_at := n1 })) ∧
    msgAlreadyCompleted task.title ≠ msgMarkedCompleted task.title ∧
    complete_task (complete_task s n1 uid tid).2 n2 uid tid =
      (Outcome.success
        { id := task.id, title := task.title, completed := true }
        (msgAlreadyCompleted task.title), (complete_task s n1 uid tid).2) := by
  have huid : ¬ task.user_id ≠ uid := fun h => h hown
  have hfind' : s.tasks.find? (fun t => t.id == tid) = some task := hfind
  have hid : task.id = tid := by
    have hbeq := List.find?_some hfind'
    simpa using hbeq
  have hfirst_t : ∀ n : Nat, task.completed = true →
      complete_task s n uid tid =
        (Outcome.success
          { id := task.id, title := task.title, completed := true }
          (msgAlreadyCompleted task.title), s) := by
    intro n hc
    simp [complete_task, hfind, huid, hc]
  have hfirst_f : ∀ n : Nat, task.completed = false →
      complete_task s n uid tid =
        (Outcome.success
          { id := task.id, title := task.title, completed := true }
          (msgMarkedCompleted task.title),
          replaceStore s tid { task with completed := true, updated_at := n }) := by
    intro n hc
    simp [complete_task, hfind, huid, hc]
  refine ⟨hfirst_t n1, hfirst_f n1, msgAlready_ne_msgMarked task.title, ?_⟩
  cases hc : task.completed with
  | true =>
    rw [hfirst_t n1 hc]
    exact hfirst_t n2 hc
  | false =>
    rw [hfirst_f n1 hc]
    have hfind2 : (replaceStore s tid
        { task with completed := true, updated_at := n1 }).find tid =
        some { task with completed := true, updated_at := n1 } :=
      find?_replace s.tasks tid _ hid task hfind
    simp [complete_task, hfind2, huid]

/-- C3 witness: in `store0` task 9 (already completed) is returned
unchanged, and completing pending task 1 then completing it again leaves
the first call's store untouched. -/
theorem C3_complete_idempotent_witness :
    complete_task store0 3 userAlice 9 =
      (Outcome.success
        { id := 9, title := task9.title, completed := true }
        (msgAlreadyCompleted task9.title), store0) ∧
    complete_task (complete_task store0 3 userAlice 1).2 7 userAlice 1 =
      (Outcome.success
        { id := 1, title := task1.title, completed := true }
        (msgAlreadyCompleted task1.title), (complete_task store0 3 userAlice 1).2) :=
  ⟨(C3_complete_idempotent store0 3 7 userAlice 9 task9
      (by decide) (by decide)).1 (by decide),
    (C3_complete_idempotent store0 3 7 userAlice 1 task1
      (by decide) (by decide)).2.2.2⟩

/-! Claim C4. -/

/-- C4 counterexample: the HTTP PUT update invoked with neither title nor
description does NOT fail with a validation error — it succeeds, bumping
only updated_at. (The agent tool does fail in that case.) -/
theorem C4_counterexample_http_put_no_field_check :
    isOkE (http_update_task store0 5 userAlice userAlice 1 none none) = true ∧
    http_update_task store0 5 userAlice userAlice 1 none none =
      Except.ok ({ task1 with updated_at := 5 },
        replaceStore store0 1 { task1 with updated_at := 5 }) :=
  ⟨by decide, by decide⟩

/-- C4 (amended): the agent tool update_task with neither field fails with
the ValidationError message and leaves the store unchanged, and — for both
the agent tool and the HTTP PUT — an update supplying exactly one of the
two fields changes only that field plus updated_at, the other keeping its
previous value; however the HTTP PUT with neither field supplied succeeds,
changing nothing but updated_at, instead of failing. -/
theorem C4_update_field_frame (s : Store) (now : Nat) (uid : String)
    (tid : Nat) (task : Task) (tv dv : String)
    (hfind : s.find tid = some task) (hown : task.user_id = uid)
    (htv1 : 1 ≤ tv.length) (htv : tv.length ≤ 200) (hdv : dv.length ≤ 1000) :
    update_task s now uid tid none none =
      (Outcome.failure errFieldRequired, s) ∧
    update_task s now uid tid (some tv) none =
      (Outcome.success
        { id := task.id, title := pyStrip tv, description := task.description,
          completed := task.completed, updated_at := now }
        (msgUpdated (pyStrip tv)),
        replaceStore s tid
          { task with title := pyStrip tv, updated_at := now }) ∧
    update_task s now uid tid none (some dv) =
      (Outcome.success
        { id := task.id, title := task.title, description := pyStrip dv,
          completed := task.completed, updated_at := now }
        (msgUpdated task.title),
        replaceStore s tid
          { task with description := pyStrip dv, updated_at := now }) ∧
    http_update_task s now uid uid tid none none =
      Except.ok ({ task with updated_at := now },
        replaceStore s tid { task with updated_at := now }) ∧
    http_update_task s now uid uid tid (some tv) none =
      Except.ok ({ task with title := tv, updated_at := now },
        replaceStore s tid { task with title := tv, updated_at := now }) ∧
    http_update_task s now uid uid tid none (some dv) =
      Except.ok ({ task with description := dv, updated_at := now },
        replaceStore s tid { task with description := dv, updated_at := now }) := by
  have huid : ¬ task.user_id ≠ uid := fun h => h hown
  have htlen : ((some tv).any (fun v => decide (v.length > 200))) = false := by
    simp
    omega
  have hdlen : ((some dv).any (fun v => decide (v.length > 1000))) = false := by
    simp
    omega
  have hvt : validTaskUpdate (some tv) none = true := by
    simp [validTaskUpdate]
    omega
  have hvd : validTaskUpdate none (some dv) = true := by
    simp [validTaskUpdate]
    omega
  refine ⟨?_, ?_, ?_, ?_, ?_, ?_⟩
  · simp [update_task]
  · simp [update_task, htlen, hfind, huid]
  · simp [update_task, hdlen, hfind, huid]
  · simp [http_update_task, validTaskUpdate, verify_user_access,
      get_task_or_404, hfind, huid]
  · simp [http_update_task, hvt, verify_user_access,
      get_task_or_404, hfind, huid]
  · simp [http_update_task, hvd, verify_user_access,
      get_task_or_404, hfind, huid]

/-- C4 witness: the amended update behaviour at `store0`, task 1. -/
theorem C4_update_field_frame_witness :
    update_task store0 5 userAlice 1 none none =
      (Outcome.failure errFieldRequired, store0) ∧
    http_update_task store0 5 userAlice userAlice 1 none none =
      Except.ok ({ task1 with updated_at := 5 },
        replaceStore store0 1 { task1 with updated_at := 5 }) :=
  ⟨(C4_update_field_frame store0 5 userAlice 1 task1 xTitle emptyStr
      (by decide) (by decide) (by decide) (by decide) (by decide)).1,
    (C4_update_field_frame store0 5 userAlice 1 task1 xTitle emptyStr
      (by decide) (by decide) (by decide) (by decide) (by decide)).2.2.2.1⟩

/-! Claim C5. -/

/-- C5: evaluation of the code at the failing input. update_task checks a
supplied title only for length > 200 and never re-checks emptiness after
stripping: updating task 1 with the whitespace-only title " " succeeds and
the stored task ends up with the empty title "" — contradicting the claim
(and the data-model invariant) that update enforces the same constraints as
create, which rejects " ". -/
theorem C5_update_accepts_empty_title :
    (update_task store0 5 userAlice 1 (some spaceTitle) none).1 =
      Outcome.success
        { id := 1, title := emptyStr, description := emptyStr,
          completed := false, updated_at := 5 }
        (msgUpdated emptyStr) ∧
    ((update_task store0 5 userAlice 1 (some spaceTitle) none).2.find 1).map
      Task.title = some emptyStr :=
  ⟨by decide, by decide⟩

/-! Claim C6. -/

/-- C6: whenever a tool call returns a failure envelope, the store is
exactly what it was before the call — validation and lookup happen before
any write, and no failing path commits anything. -/
theorem C6_failure_preserves_store (s : Store) (now : Nat) (uid : String)
    (tid : Nat) (title desc : String) (ot od : Option String) :
    ((add_task s now uid title desc).1.isFailure = true →
      (add_task s now uid title desc).2 = s) ∧
    ((update_task s now uid tid ot od).1.isFailure = true →
      (update_task s now uid tid ot od).2 = s) ∧
    ((complete_task s now uid tid).1.isFailure = true →
      (complete_task s now uid tid).2 = s) ∧
    ((delete_task s uid tid).1.isFailure = true →
      (delete_task s uid tid).2 = s) := by
  refine ⟨?_, ?_, ?_, ?_⟩
  · unfold add_task
    split_ifs <;> intro h <;>
      first
        | rfl
        | (exfalso; simp [Outcome.isFailure] at h)
  · unfold update_task
    split_ifs <;> try (intro h; rfl)
    cases hf : s.find tid with
    | none => simp [hf, Outcome.isFailure]
    | some task =>
      by_cases hu : task.user_id ≠ uid
      · simp [hf, hu, Outcome.isFailure]
      · simp [hf, hu, Outcome.isFailure]
  · unfold complete_task
    cases hf : s.find tid with
    | none => simp [hf, Outcome.isFailure]
    | some task =>
      by_cases hu : task.user_id ≠ uid
      · simp [hf, hu, Outcome.isFailure]
      · by_cases hc : task.completed = true
        · simp [hf, hu, hc, Outcome.isFailure]
        · simp [hf, hu, hc, Outcome.isFailure]
  · unfold delete_task
    cases hf : s.find tid with
    | none => simp [hf, Outcome.isFailure]
    | some task =>
      by_cases hu : task.user_id ≠ uid
      · simp [hf, hu, Outcome.isFailure]
      · simp [hf, hu, Outcome.isFailure]

/-- C6 witness: a failing add_task (empty title) leaves `store0`
untouched. -/
theorem C6_failure_preserves_store_witness :
    (add_task store0 0 userAlice emptyStr emptyStr).2 = store0 :=
  (C6_failure_preserves_store store0 0 userAlice 1 emptyStr emptyStr
    none none).1 (by decide)

/-! Claim C7. -/

theorem verify_user_access_ok (u : String) :
    verify_user_access u u = Except.ok () := by
  simp [verify_user_access]

theorem verify_user_access_error (u v : String) (e : HttpError)
    (h : verify_user_access u v = Except.error e) :
    e = { status := 403, detail := accessDenied } ∧ u ≠ v := by
  unfold verify_user_access at h
  by_cases huv : u ≠ v
  · rw [if_pos huv] at h
    exact ⟨(Except.error.inj h).symm, huv⟩
  · rw [if_neg huv] at h
    exact Except.noConfusion h

theorem get_task_or_404_error (s : Store) (uid : String) (tid : Nat)
    (e : HttpError) (h : get_task_or_404 s uid tid = Except.error e) :
    e = { status := 404, detail := errTaskNotFound } := by
  unfold get_task_or_404 at h
  split at h
  · exact (Except.error.inj h).symm
  · split at h
    · exact (Except.error.inj h).symm
    · exact Except.noConfusion h

/-- C7 counterexample: an HTTP operation does respond with status 403 —
requesting alice's task list path while authenticated as bob yields
status 403 with detail "Access denied: user_id mismatch", not 404. -/
theorem C7_counterexample_http_403 :
    http_get_task store0 userAlice userBob 1 =
      Except.error { status := 403, detail := accessDenied } := by
  decide

/-- C7 (amended): when the URL user id matches the authenticated user, the
HTTP operations fail only with 404 (absent or foreign-owned task, folded
together) or 422 (body validation); but a mismatch between the URL user id
and the token user id is NOT collapsed into 404 — it surfaces as 403, and
403 arises only from that mismatch. -/
theorem C7_http_status_mapping (s : Store) (now : Nat) (u v : String)
    (tid : Nat) (title desc : String) (ot od : Option String)
    (e : HttpError) :
    (http_get_task s u u tid = Except.error e → e.status = 404) ∧
    (http_create_task s now u u title desc = Except.error e →
      e.status = 422) ∧
    (http_update_task s now u u tid ot od = Except.error e →
      e.status = 404 ∨ e.status = 422) ∧
    (http_delete_task s u u tid = Except.error e → e.status = 404) ∧
    (http_toggle_complete s now u u tid = Except.error e →
      e.status = 404) ∧
    (u ≠ v → http_get_task s u v tid =
      Except.error { status := 403, detail := accessDenied }) ∧
    (http_get_task s u v tid = Except.error e → e.status = 403 → u ≠ v) := by
  have hget : http_get_task s u u tid = Except.error e → e.status = 404 := by
    intro h
    unfold http_get_task at h
    rw [verify_user_access_ok] at h
    rw [get_task_or_404_error s u tid e h]
  refine ⟨hget, ?_, ?_, ?_, ?_, ?_, ?_⟩
  · intro h
    unfold http_create_task at h
    by_cases hv : (!(validTaskCreate title desc)) = true
    · rw [if_pos hv] at h
      rw [← Except.error.inj h]
    · rw [if_neg hv, verify_user_access_ok] at h
      exact Except.noConfusion h
  · intro h
    unfold http_update_task at h
    by_cases hv : (!(validTaskUpdate ot od)) = true
    · rw [if_pos hv] at h
      right
      rw [← Except.error.inj h]
    · rw [if_neg hv, verify_user_access_ok] at h
      cases hg : get_task_or_404 s u tid with
      | error e2 =>
        rw [hg] at h
        left
        rw [← Except.error.inj h, get_task_or_404_error s u tid e2 hg]
      | ok task =>
        rw [hg] at h
        exact Except.noConfusion h
  · intro h
    unfold http_delete_task at h
    rw [verify_user_access_ok] at h
    cases hg : get_task_or_404 s u tid with
    | error e2 =>
      rw [hg] at h
      rw [← Except.error.inj h, get_task_or_404_error s u tid e2 hg]
    | ok task =>
      rw [hg] at h
      exact Except.noConfusion h
  · intro h
    unfold http_toggle_complete at h
    rw [verify_user_access_ok] at h
    cases hg : get_task_or_404 s u tid with
    | error e2 =>
      rw [hg] at h
      rw [← Except.error.inj h, get_task_or_404_error s u tid e2 hg]
    | ok task =>
      rw [hg] at h
      exact Except.noConfusion h
  · intro huv
    unfold http_get_task verify_user_access
    rw [if_pos huv]
  · intro h h403 huv
    subst huv
    have h404 := hget h
    rw [h404] at h403
    exact absurd h403 (by decide)

/-- C7 witness: a 404 classified by the amended theorem (absent task id 2,
matching user), and the 403 produced by a URL/token user mismatch. -/
theorem C7_http_status_mapping_witness :
    HttpError.status { status := 404, detail := errTaskNotFound } = 404 ∧
    http_get_task store0 userAlice userBob 1 =
      Except.error { status := 403, detail := accessDenied } :=
  ⟨(C7_http_status_mapping store0 0 userAlice userBob 2 emptyStr emptyStr
      none none { status := 404, detail := errTaskNotFound }).1 (by decide),
    (C7_http_status_mapping store0 0 userAlice userBob 1 emptyStr emptyStr
      none none { status := 404, detail := errTaskNotFound }).2.2.2.2.2.1
      (by decide)⟩

/-! Claim C8. -/

/-- C8: list_tasks with include_completed=false returns no completed task;
with limit n it returns at most n tasks; and in every envelope the pending
count plus the completed count equals the total count, all three computed
over the returned (already-limited) list. -/
theorem C8_list_tasks_properties (s : Store) (uid : String) (ic : Bool)
    (n : Nat) :
    (list_tasks s uid false n).tasks.all (fun t => t.completed == false) =
      true ∧
    (list_tasks s uid ic n).tasks.length ≤ n ∧
    (list_tasks s uid ic n).pending + (list_tasks s uid ic n).completed =
      (list_tasks s uid ic n).total := by
  refine ⟨?_, ?_, ?_⟩
  · simp only [list_tasks]
    rw [List.all_eq_true]
    intro t ht
    rcases List.mem_map.mp ht with ⟨x, hx, rfl⟩
    have hx2 := List.take_subset n _ hx
    have hx3 := List.mem_filter.mp hx2
    simpa [taskOutOf] using hx3.2
  · simp only [list_tasks, List.length_map, List.length_take]
    omega
  · simp only [list_tasks]
    exact countP_not_add_countP (fun t => t.completed) _

/-! Claim C9. -/

/-- C9: the HTTP toggle_complete flips the completed flag unconditionally
and sets updated_at to the call time; a second toggle flips it back, so two
consecutive calls restore the original completed value (only updated_at
differs), unlike the idempotent complete_task. -/
theorem C9_toggle_flips (s : Store) (n1 n2 : Nat) (uid : String) (tid : Nat)
    (task : Task) (hfind : s.find tid = some task)
    (hown : task.user_id = uid) :
    http_toggle_complete s n1 uid uid tid =
      Except.ok
        ({ task with completed := !task.completed, updated_at := n1 },
          replaceStore s tid
            { task with completed := !task.completed, updated_at := n1 }) ∧
    http_toggle_complete
      (replaceStore s tid
        { task with completed := !task.completed, updated_at := n1 })
      n2 uid uid tid =
      Except.ok
        ({ task with updated_at := n2 },
          replaceStore
            (replaceStore s tid
              { task with completed := !task.completed, updated_at := n1 })
            tid { task with updated_at := n2 }) := by
  have huid : ¬ task.user_id ≠ uid := fun h => h hown
  have hfind' : s.tasks.find? (fun t => t.id == tid) = some task := hfind
  have hid : task.id = tid := by
    have hbeq := List.find?_some hfind'
    simpa using hbeq
  have hfind2 : (replaceStore s tid
      { task with completed := !task.completed, updated_at := n1 }).find tid =
      some { task with completed := !task.completed, updated_at := n1 } :=
    find?_replace s.tasks tid _ hid task hfind
  constructor
  · simp [http_toggle_complete, verify_user_access, get_task_or_404,
      hfind, huid]
  · simp [http_toggle_complete, verify_user_access, get_task_or_404,
      hfind2, huid]

/-- C9 witness: toggling task 1 of `store0` twice — the first call sets
completed, the second restores the original value. -/
theorem C9_toggle_flips_witness :
    http_toggle_complete store0 4 userAlice userAlice 1 =
      Except.ok
        ({ task1 with completed := !task1.completed, updated_at := 4 },
          replaceStore store0 1
            { task1 with completed := !task1.completed, updated_at := 4 }) ∧
    http_toggle_complete
      (replaceStore store0 1
        { task1 with completed := !task1.completed, updated_at := 4 })
      6 userAlice userAlice 1 =
      Except.ok
        ({ task1 with updated_at := 6 },
          replaceStore
            (replaceStore store0 1
              { task1 with completed := !task1.completed, updated_at := 4 })
            1 { task1 with updated_at := 6 }) :=
  C9_toggle_flips store0 4 6 userAlice 1 task1 (by decide) (by decide)

/-! Claim C10. -/

/-- C10: the HTTP list endpoint takes neither an include_completed flag nor
a limit: it returns exactly the requesting user's tasks — every task of
that user, completed ones included, with no cap — whereas the agent tool at
its defaults caps the result at 50. -/
theorem C10_http_list_returns_all (s : Store) (u : String) :
    http_list_tasks s u u =
      Except.ok (s.tasks.filter (fun t => t.user_id == u)) ∧
    (∀ t, t ∈ s.tasks → t.user_id = u →
      ∃ l, http_list_tasks s u u = Except.ok l ∧ t ∈ l) ∧
    (list_tasks_with_defaults s u).tasks.length ≤ 50 := by
  have h1 : http_list_tasks s u u =
      Except.ok (s.tasks.filter (fun t => t.user_id == u)) := by
    simp [http_list_tasks, verify_user_access]
  refine ⟨h1, ?_, ?_⟩
  · intro t ht hu
    exact ⟨_, h1, List.mem_filter.mpr ⟨ht, by simp [hu]⟩⟩
  · simp only [list_tasks_with_defaults, list_tasks, List.length_map,
      List.length_take]
    omega

/-- C10 witness: the HTTP list at `store0` returns both of alice's tasks,
the completed one included. -/
theorem C10_http_list_returns_all_witness :
    http_list_tasks store0 userAlice userAlice =
      Except.ok (store0.tasks.filter (fun t => t.user_id == userAlice)) ∧
    store0.tasks.filter (fun t => t.user_id == userAlice) = [task1, task9] :=
  ⟨(C10_http_list_returns_all store0 userAlice).1, by decide⟩

end TodoApp
